import Mathlib

/-!
Verification of the GPU shader descriptor core of OpenColorIO
(`src/OpenColorIO/GpuShaderDesc.cpp`): a shallow embedding of the
`GpuShaderCreator::Impl` state, its configuration mutators, the dynamic
property registry, the resource-index allocator, the fragment buffers, the
per-language `finalize` pre-pass and the cache-identity computation, together
with theorems settling the specified properties.

External collaborators that are part of the repository but not of the
provided slice (`GpuShaderText`, `StringUtils::Replace`, `CacheIDHash`,
`GpuLanguageToString`, the texture registry of `GenericGpuShaderDesc`) are
modelled from the specification; each such definition carries a doc comment
starting with `Modelled from the spec:`.
-/

set_option autoImplicit false

namespace OCIO

/-- The GPU shading languages (`GpuLanguage` enum from `OpenColorTypes.h`).
Only the tags used by `GpuShaderDesc.cpp` matter: the Metal tag selects the
class-wrapping pre-pass and the OSL tag selects the full-program pre-pass. -/
inductive GpuLanguage where
  | GPU_LANGUAGE_CG
  | GPU_LANGUAGE_GLSL_1_2
  | GPU_LANGUAGE_GLSL_1_3
  | GPU_LANGUAGE_GLSL_4_0
  | GPU_LANGUAGE_HLSL_DX11
  | LANGUAGE_OSL_1
  | GPU_LANGUAGE_GLSL_ES_1_0
  | GPU_LANGUAGE_GLSL_ES_3_0
  | GPU_LANGUAGE_MSL_METAL
  deriving DecidableEq, Repr

/-- Modelled from the spec: `GpuLanguageToString` (outside `src/`) maps each
language tag to its printable name; the spec treats it as the "language name"
component of the identity string. The exact spellings are irrelevant to every
claim; only that the map is a pure function of the language tag. -/
def GpuLanguageToString : GpuLanguage → String
  | .GPU_LANGUAGE_CG => "cg"
  | .GPU_LANGUAGE_GLSL_1_2 => "glsl_1.2"
  | .GPU_LANGUAGE_GLSL_1_3 => "glsl_1.3"
  | .GPU_LANGUAGE_GLSL_4_0 => "glsl_4.0"
  | .GPU_LANGUAGE_HLSL_DX11 => "hlsl_dx11"
  | .LANGUAGE_OSL_1 => "osl_1"
  | .GPU_LANGUAGE_GLSL_ES_1_0 => "glsl_es_1.0"
  | .GPU_LANGUAGE_GLSL_ES_3_0 => "glsl_es_3.0"
  | .GPU_LANGUAGE_MSL_METAL => "msl_metal"

/-- The closed enumeration of dynamic property types (`DynamicPropertyType`). -/
inductive DynamicPropertyType where
  | DYNAMIC_PROPERTY_EXPOSURE
  | DYNAMIC_PROPERTY_CONTRAST
  | DYNAMIC_PROPERTY_GAMMA
  | DYNAMIC_PROPERTY_GRADING_PRIMARY
  | DYNAMIC_PROPERTY_GRADING_RGBCURVE
  | DYNAMIC_PROPERTY_GRADING_TONE
  deriving DecidableEq, Repr

/-- Printable name of a dynamic property type, used in the duplicate-property
error message (the C++ streams the enum with `operator<<`). -/
def DynamicPropertyType.str : DynamicPropertyType → String
  | .DYNAMIC_PROPERTY_EXPOSURE => "exposure"
  | .DYNAMIC_PROPERTY_CONTRAST => "contrast"
  | .DYNAMIC_PROPERTY_GAMMA => "gamma"
  | .DYNAMIC_PROPERTY_GRADING_PRIMARY => "grading_primary"
  | .DYNAMIC_PROPERTY_GRADING_RGBCURVE => "grading_rgbcurve"
  | .DYNAMIC_PROPERTY_GRADING_TONE => "grading_tone"

/-- A dynamic property (`DynamicPropertyRcPtr`): the descriptor only inspects
its type; `payload` stands for the rest of the referenced object so that two
distinct properties of the same type can be told apart. -/
structure DynamicProperty where
  ptype : DynamicPropertyType
  payload : Nat
  deriving DecidableEq, Repr

/-- One `(type, name)` function parameter of the Metal class wrapper
(`MetalClassWrappingInterface::FunctionParam`). -/
structure FunctionParam where
  type : String
  name : String
  deriving DecidableEq, Repr

/-- The Metal class-wrapping state (`MetalClassWrappingInterface`). -/
structure MetalClassWrappingInterface where
  classWrapHeader : String := ""
  classWrapFooter : String := ""
  classWrapFunctionParams : List FunctionParam := []
  deriving Repr

/-- Modelled from the spec: an ordinary texture registered by the upstream
compiler (`GpuShaderDesc::getTexture`, implemented outside `src/`): per-index
name, sampler name, width, height.  The channel/format tag and interpolation
mode are also enumerated by the interface but are never read by the code under
verification, so they are omitted. -/
structure Texture where
  name : String
  samplerName : String
  width : Nat
  height : Nat
  deriving DecidableEq, Repr

/-- Modelled from the spec: a 3D texture registered by the upstream compiler
(`GpuShaderDesc::get3DTexture`): per-index name, sampler name, edge length.
The interpolation mode is omitted as it is never read here. -/
structure Texture3D where
  name : String
  samplerName : String
  edgeLen : Nat
  deriving DecidableEq, Repr

/-- The private state of a descriptor (`GpuShaderCreator::Impl`).  The
`m_cacheIDMutex` is dropped: the pipeline is single-threaded and the mutex
only serialises access to `m_cacheID`, which the embedding passes explicitly.
`m_resourcePfx` embeds the source field `m_resourcePrefix`.  The two texture
lists model the registry of the concrete subclass (`GenericGpuShaderDesc`,
outside `src/`) that `finalize` enumerates via `getNumTextures`/`getTexture`
and `getNum3DTextures`/`get3DTexture`. -/
structure Impl where
  m_uid : String := ""
  m_language : GpuLanguage := .GPU_LANGUAGE_GLSL_1_2
  m_functionName : String := "OCIOMain"
  m_resourcePfx : String := "ocio"
  m_pixelName : String := "outColor"
  m_numResources : Nat := 0
  m_cacheID : String := ""
  m_declarations : String := ""
  m_helperMethods : String := ""
  m_functionHeader : String := ""
  m_functionBody : String := ""
  m_functionFooter : String := ""
  m_shaderCode : String := ""
  m_shaderCodeID : String := ""
  m_dynamicProperties : List DynamicProperty := []
  m_classWrappingInterface : Option MetalClassWrappingInterface := none
  textures : List Texture := []
  textures3D : List Texture3D := []
  deriving Repr

/-- The C++ pattern `(p && *p) ? p : ""`: a null pointer (`none`) and the
empty string both contribute the empty string. -/
def cstr (s : Option String) : String :=
  match s with
  | none => ""
  | some t => t

/-- Modelled from the spec: `StringUtils::Replace(name, "__", "_")` lives
outside `src/`; the spec states that double underscores are "silently
collapsed to single underscore" so that the stored names never contain the
two-character sequence `"__"`.  This collapses every run of underscores of
length at least two down to a single underscore. -/
def collapseUnderscores : List Char → List Char
  | [] => []
  | [c] => [c]
  | c :: d :: rest =>
    if c = '_' ∧ d = '_' then collapseUnderscores (d :: rest)
    else c :: collapseUnderscores (d :: rest)

/-- String form of `collapseUnderscores`, applied by the three name setters. -/
def sanitize (s : String) : String :=
  String.mk (collapseUnderscores s.data)

/-- Holds (as `true`) when the character list contains two adjacent underscores. -/
def hasDU : List Char → Bool
  | [] => false
  | [_] => false
  | c :: d :: rest =>
    if c = '_' ∧ d = '_' then true
    else hasDU (d :: rest)

/-- Number of (possibly overlapping) occurrences of `pat` in `l`. -/
def countOccs (pat : List Char) : List Char → Nat
  | [] => 0
  | c :: rest =>
    (if pat.isPrefixOf (c :: rest) then 1 else 0) + countOccs pat rest

/-- Modelled from the spec: `CacheIDHash` (outside `src/`) is "an opaque
deterministic hash over bytes"; this computable stand-in is deterministic and
is only ever compared through the name `CacheIDHash` itself. -/
def CacheIDHash (text : String) : String :=
  "h" ++ toString text.length ++ ":"
    ++ toString (text.data.foldl (fun a c => (a * 131 + c.toNat) % 1000000007) 7)

/-- Embeds `GpuShaderCreator::setUniqueID`: store the uid (null becomes empty) and
clear the cached identity. -/
def Impl.setUniqueID (s : Impl) (uid : Option String) : Impl :=
  { s with m_uid := cstr uid, m_cacheID := "" }

/-- Embeds `GpuShaderCreator::setLanguage`: discard any previous wrapper state,
store the language; the Metal tag additionally forces the entry-point name to
`"Display"` and allocates a fresh wrapper.  Clears the cached identity. -/
def Impl.setLanguage (s : Impl) (lang : GpuLanguage) : Impl :=
  if lang = .GPU_LANGUAGE_MSL_METAL then
    { s with m_language := lang, m_functionName := "Display",
             m_classWrappingInterface := some {}, m_cacheID := "" }
  else
    { s with m_language := lang, m_classWrappingInterface := none,
             m_cacheID := "" }

/-- Embeds `GpuShaderCreator::setFunctionName`: sanitize and store, clear identity. -/
def Impl.setFunctionName (s : Impl) (name : String) : Impl :=
  { s with m_functionName := sanitize name, m_cacheID := "" }

/-- Embeds `GpuShaderCreator::setResourcePrefix`: sanitize and store, clear identity. -/
def Impl.setResourcePfx (s : Impl) (p : String) : Impl :=
  { s with m_resourcePfx := sanitize p, m_cacheID := "" }

/-- Embeds `GpuShaderCreator::setPixelName`: sanitize and store, clear identity. -/
def Impl.setPixelName (s : Impl) (n : String) : Impl :=
  { s with m_pixelName := sanitize n, m_cacheID := "" }

/-- Width of the C++ `unsigned` resource counter. -/
def W32 : Nat := 4294967296

/-- Embeds `GpuShaderCreator::getNextResourceIndex`: `return m_numResources++;` —
returns the current counter and post-increments it (32-bit wraparound). -/
def Impl.getNextResourceIndex (s : Impl) : Nat × Impl :=
  (s.m_numResources, { s with m_numResources := (s.m_numResources + 1) % W32 })

/-- Embeds `GpuShaderCreator::hasDynamicProperty`: linear scan by type. -/
def Impl.hasDynamicProperty (s : Impl) (t : DynamicPropertyType) : Bool :=
  s.m_dynamicProperties.any (fun dp => decide (dp.ptype = t))

/-- The duplicate-property error message. -/
def dupMsg (t : DynamicPropertyType) : String :=
  "Dynamic property already here: " ++ t.str ++ "."

/-- Embeds `GpuShaderCreator::addDynamicProperty`: throw when a property of the same
type is already registered (before any mutation), otherwise append. -/
def Impl.addDynamicProperty (s : Impl) (p : DynamicProperty) :
    Except String Impl :=
  if s.hasDynamicProperty p.ptype then
    .error (dupMsg p.ptype)
  else
    .ok { s with m_dynamicProperties := s.m_dynamicProperties ++ [p] }

/-- Embeds `GpuShaderCreator::getNumDynamicProperties`. -/
def Impl.getNumDynamicProperties (s : Impl) : Nat :=
  s.m_dynamicProperties.length

/-- Embeds `GpuShaderCreator::getDynamicProperty(unsigned index)`: throw when the
index is out of range. -/
def Impl.getDynamicPropertyByIndex (s : Impl) (i : Nat) :
    Except String DynamicProperty :=
  if h : i < s.m_dynamicProperties.length then
    .ok (s.m_dynamicProperties.get ⟨i, h⟩)
  else
    .error ("Dynamic properties access error: index = " ++ toString i
      ++ " where size = " ++ toString s.m_dynamicProperties.length)

/-- Embeds `GpuShaderCreator::getDynamicProperty(DynamicPropertyType)`: first match
by type, or throw. -/
def Impl.getDynamicPropertyByType (s : Impl) (t : DynamicPropertyType) :
    Except String DynamicProperty :=
  match s.m_dynamicProperties.find? (fun dp => decide (dp.ptype = t)) with
  | some dp => .ok dp
  | none => .error "Dynamic property not found."

/-- The identity string assembled by `GpuShaderCreator::getCacheID` when the
cache is empty: language name, function name, resource prefix, pixel name,
resource count, content hash of the assembled text — space-separated. -/
def Impl.computeCacheID (s : Impl) : String :=
  GpuLanguageToString s.m_language ++ " "
    ++ s.m_functionName ++ " "
    ++ s.m_resourcePfx ++ " "
    ++ s.m_pixelName ++ " "
    ++ toString s.m_numResources ++ " "
    ++ s.m_shaderCodeID

/-- Embeds `GpuShaderCreator::getCacheID`: return the cached identity, recomputing
and caching it when the cache is empty.  The mutable cache becomes an
explicit state component. -/
def Impl.getCacheID (s : Impl) : String × Impl :=
  if s.m_cacheID = "" then
    (s.computeCacheID, { s with m_cacheID := s.computeCacheID })
  else
    (s.m_cacheID, s)

/-- Embeds `GpuShaderCreator::Impl::operator=`: copies the configuration, the
resource counter, the cached identity and the five fragment buffers; clears
the assembled shader text and its content hash.  The dynamic property list,
the wrapper state and the texture registry of the target are left as they
are (for a fresh clone target: empty). -/
def Impl.assign (lhs rhs : Impl) : Impl :=
  { lhs with
      m_uid := rhs.m_uid,
      m_language := rhs.m_language,
      m_functionName := rhs.m_functionName,
      m_resourcePfx := rhs.m_resourcePfx,
      m_pixelName := rhs.m_pixelName,
      m_numResources := rhs.m_numResources,
      m_cacheID := rhs.m_cacheID,
      m_declarations := rhs.m_declarations,
      m_helperMethods := rhs.m_helperMethods,
      m_functionHeader := rhs.m_functionHeader,
      m_functionBody := rhs.m_functionBody,
      m_functionFooter := rhs.m_functionFooter,
      m_shaderCode := "",
      m_shaderCodeID := "" }

/-- Embeds `GpuShaderDesc::clone`: create a fresh descriptor and assign the source
implementation into it. -/
def Impl.clone (s : Impl) : Impl :=
  Impl.assign {} s

/-- Embeds `GpuShaderDesc::getShaderText`. -/
def Impl.getShaderText (s : Impl) : String :=
  s.m_shaderCode

/-- Banner emitted before the first content of the Metal wrapper header. -/
def metalHeaderBanner : String := "\n// Declaration of class wrapper\n\n"

/-- Banner emitted before the first content of the Metal wrapper footer. -/
def metalFooterBanner : String := "\n// close class wrapper\n\n"

/-- Banner emitted before the first content of the declarations buffer. -/
def declBanner : String := "\n// Declaration of all variables\n\n"

/-- Banner emitted before the first content of the helper-methods buffer. -/
def helperBanner : String := "\n// Declaration of all helper methods\n\n"

/-- Embeds `MetalClassWrappingInterface::addToFunctionParameter`. -/
def MetalClassWrappingInterface.addToFunctionParameter
    (w : MetalClassWrappingInterface) (type name : String) :
    MetalClassWrappingInterface :=
  { w with classWrapFunctionParams := w.classWrapFunctionParams ++ [⟨type, name⟩] }

/-- Embeds `MetalClassWrappingInterface::addToHeaderShaderCode`: emit the one-time
banner when the buffer is still empty, then append (null/empty contribute
nothing). -/
def MetalClassWrappingInterface.addToHeaderShaderCode
    (w : MetalClassWrappingInterface) (shaderCode : Option String) :
    MetalClassWrappingInterface :=
  let base := if w.classWrapHeader = "" then w.classWrapHeader ++ metalHeaderBanner
              else w.classWrapHeader
  { w with classWrapHeader := base ++ cstr shaderCode }

/-- Embeds `MetalClassWrappingInterface::addToFooterShaderCode`. -/
def MetalClassWrappingInterface.addToFooterShaderCode
    (w : MetalClassWrappingInterface) (shaderCode : Option String) :
    MetalClassWrappingInterface :=
  let base := if w.classWrapFooter = "" then w.classWrapFooter ++ metalFooterBanner
              else w.classWrapFooter
  { w with classWrapFooter := base ++ cstr shaderCode }

/-- Embeds `GpuShaderCreator::addToDeclareShaderCode`: one-time banner, then append. -/
def Impl.addToDeclareShaderCode (s : Impl) (shaderCode : Option String) : Impl :=
  let base := if s.m_declarations = "" then s.m_declarations ++ declBanner
              else s.m_declarations
  { s with m_declarations := base ++ cstr shaderCode }

/-- Embeds `GpuShaderCreator::addToHelperShaderCode`: one-time banner, then append. -/
def Impl.addToHelperShaderCode (s : Impl) (shaderCode : Option String) : Impl :=
  let base := if s.m_helperMethods = "" then s.m_helperMethods ++ helperBanner
              else s.m_helperMethods
  { s with m_helperMethods := base ++ cstr shaderCode }

/-- Embeds `GpuShaderCreator::addToFunctionShaderCode`: plain append to the body. -/
def Impl.addToFunctionShaderCode (s : Impl) (shaderCode : Option String) : Impl :=
  { s with m_functionBody := s.m_functionBody ++ cstr shaderCode }

/-- Embeds `GpuShaderCreator::addToFunctionHeaderShaderCode`: plain append. -/
def Impl.addToFunctionHeaderShaderCode (s : Impl) (shaderCode : Option String) :
    Impl :=
  { s with m_functionHeader := s.m_functionHeader ++ cstr shaderCode }

/-- Embeds `GpuShaderCreator::addToFunctionFooterShaderCode`: plain append. -/
def Impl.addToFunctionFooterShaderCode (s : Impl) (shaderCode : Option String) :
    Impl :=
  { s with m_functionFooter := s.m_functionFooter ++ cstr shaderCode }

/-- The class-wrapper header spliced in front of the shader text: present only
for the Metal language (the C++ dereferences the wrapper pointer there, which
`setLanguage` guarantees to be non-null whenever the language is Metal). -/
def wrapHeaderOf (s : Impl) : String :=
  if s.m_language = .GPU_LANGUAGE_MSL_METAL then
    (s.m_classWrappingInterface.getD {}).classWrapHeader
  else ""

/-- The class-wrapper footer spliced behind the shader text (Metal only). -/
def wrapFooterOf (s : Impl) : String :=
  if s.m_language = .GPU_LANGUAGE_MSL_METAL then
    (s.m_classWrappingInterface.getD {}).classWrapFooter
  else ""

/-- Embeds `GpuShaderCreator::createShaderText`: clear the assembled buffer, then
concatenate wrapper header, declarations, helper methods, function header,
function body, function footer, wrapper footer (null/empty contribute
nothing), hash the result into `m_shaderCodeID`, and clear the cached
identity. -/
def Impl.createShaderText (s : Impl)
    (shaderDeclarations shaderHelperMethods shaderFunctionHeader
     shaderFunctionBody shaderFunctionFooter : Option String) : Impl :=
  let code := wrapHeaderOf s
    ++ cstr shaderDeclarations
    ++ cstr shaderHelperMethods
    ++ cstr shaderFunctionHeader
    ++ cstr shaderFunctionBody
    ++ cstr shaderFunctionFooter
    ++ wrapFooterOf s
  { s with m_shaderCode := code,
           m_shaderCodeID := CacheIDHash code,
           m_cacheID := "" }

/-- Embeds `TextureInfo` from `GpuShaderUtils.h`: a texture name with the dimension
count recovered from its target-language type name. -/
structure TextureInfo where
  name : String
  dimensions : Nat
  deriving DecidableEq, Repr

/-- Modelled from the spec: `GpuShaderText::getSamplerName` (outside `src/`)
derives the sampler parameter name from the texture name. -/
def getSamplerName (textureName : String) : String :=
  textureName ++ "Sampler"

/-- Modelled from the spec: `GpuShaderText::getTexType` (outside `src/`) maps
a dimension count to the Metal texture type name, the service "given a
language and a semantic type, produce its textual type name". -/
def getTexType (lang : GpuLanguage) (dims : Nat) (component : String) : String :=
  if lang = .GPU_LANGUAGE_MSL_METAL then
    "texture" ++ toString dims ++ "d<" ++ component ++ ">"
  else
    "texture" ++ toString dims ++ "d"

/-- Modelled from the spec: `GpuShaderText::getDimensions` (outside `src/`),
the inverse of `getTexType` for the Metal type names. -/
def getDimensions (texType : String) : Nat :=
  if texType = "texture1d<float>" then 1
  else if texType = "texture2d<float>" then 2
  else if texType = "texture3d<float>" then 3
  else 0

/-- Modelled from the spec: `GpuShaderText::hasClassWrapper` (outside `src/`)
is the capability query "does this language require explicit resource
wrapping"; for the Metal family it holds. -/
def metalHasClassWrapper : Bool := true

/-- Embeds `TextureInfoFromParams`: every non-sampler function parameter becomes a
`TextureInfo` with its dimensions recovered from the type name. -/
def TextureInfoFromParams (w : MetalClassWrappingInterface) : List TextureInfo :=
  w.classWrapFunctionParams.filterMap (fun p =>
    if p.type = "sampler" then none
    else some ⟨p.name, getDimensions p.type⟩)

/-- Embeds `GetClassWrapperName`: the fixed wrapper class name. -/
def GetClassWrapperName : String := "OCIO"

/-- Modelled from the spec: the class declaration synthesized by
`GpuShaderText::classWrapperHeader` (outside `src/`) — "a generated class
declaration taking the parameter list, using a wrapper class name". -/
def classWrapperHeaderText (className : String) (infos : List TextureInfo) :
    String :=
  "struct " ++ className ++ "\n\x7b\n"
    ++ String.join (infos.map (fun i =>
        "  texture" ++ toString i.dimensions ++ "d<float> " ++ i.name
          ++ ";\n  sampler " ++ getSamplerName i.name ++ ";\n"))

/-- Modelled from the spec: the closing code synthesized by
`GpuShaderText::classWrapperFooter` (outside `src/`) — "closing code
referencing the function name and parameter list". -/
def classWrapperFooterText (className : String) (infos : List TextureInfo)
    (functionName : String) : String :=
  "\x7d;\n" ++ className ++ " c = " ++ className ++ "("
    ++ String.intercalate ", " (infos.map (fun i =>
        i.name ++ ", " ++ getSamplerName i.name))
    ++ ");\nreturn c." ++ functionName ++ "(inPixel);\n"

/-- Embeds `WriteShaderClassWrapperHeader`: when the language wraps, synthesize the
class declaration (two `newLine` emissions: the declaration line and a blank
line) and feed it into the wrapper header buffer. -/
def WriteShaderClassWrapperHeader (w : MetalClassWrappingInterface) :
    MetalClassWrappingInterface :=
  if metalHasClassWrapper then
    w.addToHeaderShaderCode (some
      (classWrapperHeaderText GetClassWrapperName (TextureInfoFromParams w)
        ++ "\n" ++ "\n"))
  else w

/-- Embeds `WriteShaderClassWrapperFooter`: when the language wraps, synthesize the
closing code (a blank line then the closing block) and feed it into the
wrapper footer buffer. -/
def WriteShaderClassWrapperFooter (w : MetalClassWrappingInterface)
    (functionName : String) : MetalClassWrappingInterface :=
  if metalHasClassWrapper then
    w.addToFooterShaderCode (some
      ("\n" ++ classWrapperFooterText GetClassWrapperName
        (TextureInfoFromParams w) functionName ++ "\n"))
  else w

/-- Marker line of the OSL preamble, used to count duplications. -/
def oslIncludesMarker : String := "/* All the includes */"

/-- Modelled from the spec: the full-program (OSL) preamble synthesized by
`finalize` through `GpuShaderText` (whose line writer lives outside `src/`;
each `newLine() << t` emits the indented text followed by a newline, with
two-space indentation inside braces).  The literal line contents are those of
`GpuShaderCreator::finalize` in `src/`: include directives for the two
vector/color utility headers, the fixed operator-overload helpers, and the
program declaration line naming the entry point. -/
def oslPreamble (functionName : String) : String :=
  "\n"
  ++ "/* All the includes */\n"
  ++ "\n"
  ++ "#include \"vector4.h\"\n"
  ++ "#include \"color4.h\"\n"
  ++ "\n"
  ++ "/* All the generic helper methods */\n"
  ++ "\n"
  ++ "vector4 __operator__mul__(vector4 v, matrix m)\n"
  ++ "\x7b\n"
  ++ "  return vector4(v.x * m[0][0] + v.y * m[1][0] + v.z * m[2][0] + v.w * m[3][0], "
  ++ "v.x * m[0][1] + v.y * m[1][1] + v.z * m[2][1] + v.w * m[3][1], "
  ++ "v.x * m[0][2] + v.y * m[1][2] + v.z * m[2][2] + v.w * m[3][2], "
  ++ "v.x * m[0][3] + v.y * m[1][3] + v.z * m[2][3] + v.w * m[3][3]);\n"
  ++ "\x7d\n"
  ++ "\n"
  ++ "vector4 __operator__mul__(color4 c, vector4 v)\n"
  ++ "\x7b\n"
  ++ "  return vector4(c.rgb.r, c.rgb.g, c.rgb.b, c.a) * v;\n"
  ++ "\x7d\n"
  ++ "\n"
  ++ "vector4 __operator__mul__(vector4 v, color4 c)\n"
  ++ "\x7b\n"
  ++ "  return v * vector4(c.rgb.r, c.rgb.g, c.rgb.b, c.a);\n"
  ++ "\x7d\n"
  ++ "\n"
  ++ "vector4 __operator__sub__(color4 c, vector4 v)\n"
  ++ "\x7b\n"
  ++ "  return vector4(c.rgb.r, c.rgb.g, c.rgb.b, c.a) - v;\n"
  ++ "\x7d\n"
  ++ "\n"
  ++ "vector4 __operator__add__(vector4 v, color4 c) \x7b\n"
  ++ "  return v + vector4(c.rgb.r, c.rgb.g, c.rgb.b, c.a);\n"
  ++ "\x7d\n"
  ++ "\n"
  ++ "vector4 __operator__add__(color4 c, vector4 v) \x7b\n"
  ++ "  return vector4(c.rgb.r, c.rgb.g, c.rgb.b, c.a) + v;\n"
  ++ "\x7d\n"
  ++ "\n"
  ++ "vector4 pow(color4 c, vector4 v) \x7b\n"
  ++ "  return pow(vector4(c.rgb.r, c.rgb.g, c.rgb.b, c.a), v);\n"
  ++ "\x7d\n"
  ++ "\n"
  ++ "vector4 max(vector4 v, color4 c) \x7b\n"
  ++ "  return max(v, vector4(c.rgb.r, c.rgb.g, c.rgb.b, c.a));\n"
  ++ "\x7d\n"
  ++ "\n"
  ++ "/* The shader implementation */\n"
  ++ "\n"
  ++ "shader OSL_" ++ functionName
  ++ "(color4 inColor = \x7bcolor(0), 1\x7d, output color4 outColor = \x7bcolor(0), 1\x7d)\n"
  ++ "\x7b\n"

/-- Modelled from the spec: the full-program (OSL) footer synthesized by
`finalize` — a blank line, the line assigning the entry function's result to
the output parameter, and the closing brace (line contents from `src/`). -/
def oslFooter (functionName : String) : String :=
  "\n" ++ "outColor = " ++ functionName ++ "(inColor);\n" ++ "\x7d\n"

/-- The OSL branch of `GpuShaderCreator::finalize`: prepend the synthesized
preamble to the declarations buffer and append the synthesized footer to the
function-footer buffer. -/
def oslPrePass (s : Impl) : Impl :=
  if s.m_language = .LANGUAGE_OSL_1 then
    { s with
        m_declarations := oslPreamble s.m_functionName ++ s.m_declarations,
        m_functionFooter := s.m_functionFooter ++ oslFooter s.m_functionName }
  else s

/-- The Metal branch of `GpuShaderCreator::finalize`: turn every registered
3D texture and then every ordinary texture into a (texture-type, name) plus
(sampler, samplerName) parameter pair, then synthesize the wrapper header and
footer. -/
def metalPrePass (s : Impl) : Impl :=
  let w0 := s.m_classWrappingInterface.getD {}
  let w1 := s.textures3D.foldl (fun w t =>
    MetalClassWrappingInterface.addToFunctionParameter
      (MetalClassWrappingInterface.addToFunctionParameter w
        (getTexType s.m_language 3 "float") t.name)
      "sampler" (getSamplerName t.name)) w0
  let w2 := s.textures.foldl (fun w t =>
    MetalClassWrappingInterface.addToFunctionParameter
      (MetalClassWrappingInterface.addToFunctionParameter w
        (getTexType s.m_language (if t.height > 1 then 2 else 1) "float") t.name)
      "sampler" (getSamplerName t.name)) w1
  let w3 := WriteShaderClassWrapperHeader w2
  let w4 := WriteShaderClassWrapperFooter w3 s.m_functionName
  { s with m_classWrappingInterface := some w4 }

/-- The Metal branch guard of `finalize` (the language is unchanged by the
OSL branch, so testing it after `oslPrePass` matches the source). -/
def metalPrePassCond (s : Impl) : Impl :=
  if s.m_language = .GPU_LANGUAGE_MSL_METAL then metalPrePass s else s

/-- Embeds `GpuShaderCreator::finalize`: language-specific pre-pass (OSL prepends
the program preamble and appends the program footer; Metal populates the
class wrapper), then assemble the shader text from the five buffers.  The
debug-logging tail of the source is output-only and is not modelled. -/
def Impl.finalize (s : Impl) : Impl :=
  let s2 := metalPrePassCond (oslPrePass s)
  s2.createShaderText (some s2.m_declarations) (some s2.m_helperMethods)
    (some s2.m_functionHeader) (some s2.m_functionBody)
    (some s2.m_functionFooter)

/-- Modelled from the spec: registration of an ordinary texture by the
upstream compiler (`GenericGpuShaderDesc::addTexture`, outside `src/`) —
appended in registration order. -/
def Impl.addTexture (s : Impl) (t : Texture) : Impl :=
  { s with textures := s.textures ++ [t] }

/-- Modelled from the spec: registration of a 3D texture by the upstream
compiler (`GenericGpuShaderDesc::add3DTexture`, outside `src/`). -/
def Impl.add3DTexture (s : Impl) (t : Texture3D) : Impl :=
  { s with textures3D := s.textures3D ++ [t] }

/-! ### String helper lemmas -/

theorem strAppendEmpty (a : String) : a ++ "" = a :=
  String.ext (List.append_nil a.data)

theorem strAppendAssoc (a b c : String) : a ++ b ++ c = a ++ (b ++ c) :=
  String.ext (List.append_assoc a.data b.data c.data)

theorem strAppendNeEmpty (a b : String) (h : a ≠ "") : a ++ b ≠ "" := by
  intro hab
  apply h
  have hdata := congrArg String.data hab
  have ha : a.data = [] := (List.append_eq_nil.mp hdata).1
  exact String.ext (by rw [ha])

/-! ### Underscore collapsing (claim C6) -/

theorem collapse_cons (l : List Char) :
    ∀ c : Char, ∃ r, collapseUnderscores (c :: l) = c :: r := by
  induction l with
  | nil => intro c; exact ⟨[], rfl⟩
  | cons d rest ih =>
    intro c
    by_cases hcd : c = '_' ∧ d = '_'
    · obtain ⟨r, hr⟩ := ih d
      refine ⟨r, ?_⟩
      rw [collapseUnderscores, if_pos hcd, hr, hcd.1, hcd.2]
    · exact ⟨collapseUnderscores (d :: rest), by
        rw [collapseUnderscores, if_neg hcd]⟩

theorem collapse_noDU (l : List Char) :
    hasDU (collapseUnderscores l) = false := by
  induction l with
  | nil => rfl
  | cons c tl ih =>
    cases tl with
    | nil => rfl
    | cons d rest =>
      by_cases hcd : c = '_' ∧ d = '_'
      · rw [collapseUnderscores, if_pos hcd]; exact ih
      · obtain ⟨r, hr⟩ := collapse_cons rest d
        rw [collapseUnderscores, if_neg hcd, hr, hasDU, if_neg hcd, ← hr]
        exact ih

/-- C6: the stored `functionName`, `resourcePrefix` and `pixelName` never
contain the two-character sequence `"__"` (every input is collapsed), and in
particular `setFunctionName("foo__bar__baz")` stores `"foo_bar_baz"`. -/
theorem name_sanitization (s : Impl) (name : String) :
    hasDU (Impl.setFunctionName s name).m_functionName.data = false ∧
    hasDU (Impl.setResourcePfx s name).m_resourcePfx.data = false ∧
    hasDU (Impl.setPixelName s name).m_pixelName.data = false ∧
    (Impl.setFunctionName s "foo__bar__baz").m_functionName = "foo_bar_baz" := by
  refine ⟨collapse_noDU name.data, collapse_noDU name.data,
    collapse_noDU name.data, ?_⟩
  show sanitize "foo__bar__baz" = "foo_bar_baz"
  decide

/-! ### Cache identity (claims C1, C10) -/

/-- C1: whenever the cached identity is empty (the computing path of
`getCacheID`), the returned identity string is exactly the language name,
function name, resource prefix, pixel name, resource count and content hash
of the assembled shader text, space-separated and in this order; the
`uniqueId` does not appear: changing it alone never changes the result. -/
theorem cacheID_format (s : Impl) (h : s.m_cacheID = "") :
    (Impl.getCacheID s).1 =
      GpuLanguageToString s.m_language ++ " "
        ++ s.m_functionName ++ " "
        ++ s.m_resourcePfx ++ " "
        ++ s.m_pixelName ++ " "
        ++ toString s.m_numResources ++ " "
        ++ s.m_shaderCodeID
    ∧ ∀ u : String,
        (Impl.getCacheID { s with m_uid := u }).1 = (Impl.getCacheID s).1 := by
  constructor
  · simp [Impl.getCacheID, h, Impl.computeCacheID]
  · intro u
    simp [Impl.getCacheID, h, Impl.computeCacheID]

/-- C1 witness: the format theorem applied to a fresh descriptor. -/
theorem cacheID_format_witness :
    ({} : Impl).m_cacheID = "" ∧
      (Impl.getCacheID {}).1 = "glsl_1.2 OCIOMain ocio outColor 0 " :=
  ⟨rfl, ((cacheID_format {} rfl).1).trans (by decide)⟩

/-- C10: the identity never depends on the `uniqueId`: the computed identity
of two states differing only in the uid is the same; `setUniqueID` clears the
cached identity, and the identity recomputed right after `setUniqueID` equals
the one the original state would compute. -/
theorem cacheID_independent_of_uid (s : Impl) (u : Option String) :
    (Impl.setUniqueID s u).m_cacheID = "" ∧
    (Impl.getCacheID (Impl.setUniqueID s u)).1 = Impl.computeCacheID s ∧
    (∀ u1 u2 : String,
      Impl.computeCacheID { s with m_uid := u1 } =
        Impl.computeCacheID { s with m_uid := u2 }) := by
  refine ⟨rfl, ?_, fun u1 u2 => rfl⟩
  simp [Impl.getCacheID, Impl.setUniqueID, Impl.computeCacheID]

/-! ### Cloning (claim C3) -/

/-- C3 counterexample: the claim says the clone's cached identity starts
empty, but `Impl::operator=` copies `m_cacheID`; cloning a fresh descriptor
whose identity has just been computed yields a clone with the same non-empty
cached identity. -/
theorem clone_copies_cached_identity :
    (Impl.clone ((Impl.getCacheID {}).2)).m_cacheID
        = "glsl_1.2 OCIOMain ocio outColor 0 " ∧
      ("glsl_1.2 OCIOMain ocio outColor 0 " : String) ≠ "" := by
  constructor
  · decide
  · decide

/-- C3 amended: `clone` copies the configuration fields, the resource
counter, the five fragment buffers and also the cached identity string, while
the assembled shader text and its content hash start empty (to be produced
only by the clone's own `finalize`); the dynamic-property list of the clone
starts empty as well. -/
theorem clone_fields (s : Impl) :
    (Impl.clone s).m_uid = s.m_uid ∧
    (Impl.clone s).m_language = s.m_language ∧
    (Impl.clone s).m_functionName = s.m_functionName ∧
    (Impl.clone s).m_resourcePfx = s.m_resourcePfx ∧
    (Impl.clone s).m_pixelName = s.m_pixelName ∧
    (Impl.clone s).m_numResources = s.m_numResources ∧
    (Impl.clone s).m_declarations = s.m_declarations ∧
    (Impl.clone s).m_helperMethods = s.m_helperMethods ∧
    (Impl.clone s).m_functionHeader = s.m_functionHeader ∧
    (Impl.clone s).m_functionBody = s.m_functionBody ∧
    (Impl.clone s).m_functionFooter = s.m_functionFooter ∧
    (Impl.clone s).m_shaderCode = "" ∧
    (Impl.clone s).m_shaderCodeID = "" ∧
    (Impl.clone s).m_cacheID = s.m_cacheID ∧
    (Impl.clone s).m_dynamicProperties = [] :=
  ⟨rfl, rfl, rfl, rfl, rfl, rfl, rfl, rfl, rfl, rfl, rfl, rfl, rfl, rfl, rfl⟩

/-! ### Shader text assembly (claim C4) -/

/-- C4: the assembled text is the concatenation, in this fixed order, of
wrapper header (if present), declarations, helpers, function header, body,
footer, wrapper footer, with empty/null segments contributing nothing, and
its hash is stored as the content id; with all five buffers empty and no
wrapper the text is empty and the id is the hash of the empty sequence. -/
theorem createShaderText_order (s : Impl) (d h fh fb ff : Option String) :
    (Impl.createShaderText s d h fh fb ff).m_shaderCode =
      wrapHeaderOf s ++ cstr d ++ cstr h ++ cstr fh ++ cstr fb ++ cstr ff
        ++ wrapFooterOf s
    ∧ (Impl.createShaderText s d h fh fb ff).m_shaderCodeID =
      CacheIDHash (wrapHeaderOf s ++ cstr d ++ cstr h ++ cstr fh ++ cstr fb
        ++ cstr ff ++ wrapFooterOf s)
    ∧ (s.m_language ≠ GpuLanguage.GPU_LANGUAGE_MSL_METAL →
        (Impl.createShaderText s none none none none none).m_shaderCode = ""
        ∧ (Impl.createShaderText s none none none none none).m_shaderCodeID =
            CacheIDHash "") := by
  refine ⟨rfl, rfl, ?_⟩
  intro hm
  simp only [Impl.createShaderText, wrapHeaderOf, wrapFooterOf, if_neg hm]
  exact ⟨rfl, rfl⟩

/-- C4 witness: a fresh descriptor uses the default (non-Metal) language. -/
theorem createShaderText_order_witness :
    ({} : Impl).m_language ≠ GpuLanguage.GPU_LANGUAGE_MSL_METAL ∧
    (Impl.createShaderText {} none none none none none).m_shaderCode = "" ∧
    (Impl.createShaderText {} none none none none none).m_shaderCodeID =
      CacheIDHash "" :=
  ⟨by decide, (createShaderText_order {} none none none none none).2.2 (by decide)⟩

/-! ### Dynamic property registry (claim C7) -/

theorem find_append_last {l : List DynamicProperty} {t : DynamicPropertyType}
    {p : DynamicProperty}
    (hl : l.any (fun dp => decide (dp.ptype = t)) = false) (hp : p.ptype = t) :
    (l ++ [p]).find? (fun dp => decide (dp.ptype = t)) = some p := by
  induction l with
  | nil => simp [List.find?, hp]
  | cons a rest ih =>
    rw [List.any_cons] at hl
    cases ha : (decide (a.ptype = t)) with
    | true => rw [ha] at hl; simp at hl
    | false =>
      rw [ha] at hl
      simp only [Bool.false_or] at hl
      simpa [List.find?, ha] using ih hl

theorem get_append_length {α : Type} (l : List α) (p : α)
    (h : l.length < (l ++ [p]).length) :
    (l ++ [p]).get ⟨l.length, h⟩ = p := by
  induction l with
  | nil => rfl
  | cons a rest ih => exact ih (by simp)

/-- C7: `addDynamicProperty` fails with the duplicate-property error exactly
when a property of the same type is already registered (the state, passed
explicitly, is untouched on failure); otherwise the property is appended and
is afterwards retrievable both by its type and by its index. -/
theorem addDynamicProperty_spec (s : Impl) (p : DynamicProperty) :
    (s.hasDynamicProperty p.ptype = true →
      s.addDynamicProperty p = .error (dupMsg p.ptype)) ∧
    (s.hasDynamicProperty p.ptype = false →
      s.addDynamicProperty p =
        .ok { s with m_dynamicProperties := s.m_dynamicProperties ++ [p] } ∧
      Impl.getDynamicPropertyByType
        { s with m_dynamicProperties := s.m_dynamicProperties ++ [p] }
        p.ptype = .ok p ∧
      Impl.getDynamicPropertyByIndex
        { s with m_dynamicProperties := s.m_dynamicProperties ++ [p] }
        s.m_dynamicProperties.length = .ok p) := by
  constructor
  · intro h
    simp [Impl.addDynamicProperty, h]
  · intro h
    refine ⟨by simp [Impl.addDynamicProperty, h], ?_, ?_⟩
    · unfold Impl.getDynamicPropertyByType
      rw [show ({ s with m_dynamicProperties := s.m_dynamicProperties ++ [p] }
            : Impl).m_dynamicProperties = s.m_dynamicProperties ++ [p] from rfl]
      rw [find_append_last ?_ rfl]
      unfold Impl.hasDynamicProperty at h
      exact h
    · unfold Impl.getDynamicPropertyByIndex
      rw [dif_pos (by simp)]
      rw [get_append_length]

/-- C7 witness: registering on a fresh descriptor succeeds, the property is
retrievable by type and by index, and a second registration of the same type
fails with the duplicate-property error. -/
theorem addDynamicProperty_spec_witness :
    (Impl.hasDynamicProperty {} DynamicPropertyType.DYNAMIC_PROPERTY_EXPOSURE
        = false) ∧
    (Impl.addDynamicProperty {}
        ⟨DynamicPropertyType.DYNAMIC_PROPERTY_EXPOSURE, 0⟩ =
      .ok { ({} : Impl) with m_dynamicProperties :=
              ([] : List DynamicProperty)
                ++ [⟨DynamicPropertyType.DYNAMIC_PROPERTY_EXPOSURE, 0⟩] } ∧
      Impl.getDynamicPropertyByType
        { ({} : Impl) with m_dynamicProperties :=
            ([] : List DynamicProperty)
              ++ [⟨DynamicPropertyType.DYNAMIC_PROPERTY_EXPOSURE, 0⟩] }
        DynamicPropertyType.DYNAMIC_PROPERTY_EXPOSURE =
          .ok ⟨DynamicPropertyType.DYNAMIC_PROPERTY_EXPOSURE, 0⟩ ∧
      Impl.getDynamicPropertyByIndex
        { ({} : Impl) with m_dynamicProperties :=
            ([] : List DynamicProperty)
              ++ [⟨DynamicPropertyType.DYNAMIC_PROPERTY_EXPOSURE, 0⟩] }
        ([] : List DynamicProperty).length =
          .ok ⟨DynamicPropertyType.DYNAMIC_PROPERTY_EXPOSURE, 0⟩) :=
  ⟨by decide,
    (addDynamicProperty_spec {}
      ⟨DynamicPropertyType.DYNAMIC_PROPERTY_EXPOSURE, 0⟩).2 (by decide)⟩

/-! ### Fragment-buffer banners (claim C8) -/

/-- A sequence of `addToDeclareShaderCode` calls. -/
def runDecls (s : Impl) (l : List (Option String)) : Impl :=
  l.foldl Impl.addToDeclareShaderCode s

/-- A sequence of `addToHelperShaderCode` calls. -/
def runHelpers (s : Impl) (l : List (Option String)) : Impl :=
  l.foldl Impl.addToHelperShaderCode s

/-- A sequence of `addToFunctionHeaderShaderCode` calls. -/
def runHeaderAppends (s : Impl) (l : List (Option String)) : Impl :=
  l.foldl Impl.addToFunctionHeaderShaderCode s

/-- A sequence of `addToFunctionShaderCode` calls (the body buffer). -/
def runBodyAppends (s : Impl) (l : List (Option String)) : Impl :=
  l.foldl Impl.addToFunctionShaderCode s

/-- A sequence of `addToFunctionFooterShaderCode` calls. -/
def runFooterAppends (s : Impl) (l : List (Option String)) : Impl :=
  l.foldl Impl.addToFunctionFooterShaderCode s

/-- Concatenation of a sequence of appended segments (null/empty = ""). -/
def joinOpt : List (Option String) → String
  | [] => ""
  | o :: rest => cstr o ++ joinOpt rest

theorem runDecls_of_ne (l : List (Option String)) :
    ∀ s : Impl, s.m_declarations ≠ "" →
      (runDecls s l).m_declarations = s.m_declarations ++ joinOpt l := by
  induction l with
  | nil => intro s _; exact (strAppendEmpty _).symm
  | cons o rest ih =>
    intro s h
    have hstep : (Impl.addToDeclareShaderCode s o).m_declarations =
        s.m_declarations ++ cstr o := by
      unfold Impl.addToDeclareShaderCode
      simp [h]
    calc (runDecls s (o :: rest)).m_declarations
        = (runDecls (Impl.addToDeclareShaderCode s o) rest).m_declarations := rfl
      _ = (Impl.addToDeclareShaderCode s o).m_declarations ++ joinOpt rest :=
          ih _ (by rw [hstep]; exact strAppendNeEmpty _ _ h)
      _ = s.m_declarations ++ cstr o ++ joinOpt rest := by rw [hstep]
      _ = s.m_declarations ++ (cstr o ++ joinOpt rest) := strAppendAssoc _ _ _

theorem runHelpers_of_ne (l : List (Option String)) :
    ∀ s : Impl, s.m_helperMethods ≠ "" →
      (runHelpers s l).m_helperMethods = s.m_helperMethods ++ joinOpt l := by
  induction l with
  | nil => intro s _; exact (strAppendEmpty _).symm
  | cons o rest ih =>
    intro s h
    have hstep : (Impl.addToHelperShaderCode s o).m_helperMethods =
        s.m_helperMethods ++ cstr o := by
      unfold Impl.addToHelperShaderCode
      simp [h]
    calc (runHelpers s (o :: rest)).m_helperMethods
        = (runHelpers (Impl.addToHelperShaderCode s o) rest).m_helperMethods := rfl
      _ = (Impl.addToHelperShaderCode s o).m_helperMethods ++ joinOpt rest :=
          ih _ (by rw [hstep]; exact strAppendNeEmpty _ _ h)
      _ = s.m_helperMethods ++ cstr o ++ joinOpt rest := by rw [hstep]
      _ = s.m_helperMethods ++ (cstr o ++ joinOpt rest) := strAppendAssoc _ _ _

theorem runHeaderAppends_spec (l : List (Option String)) :
    ∀ s : Impl,
      (runHeaderAppends s l).m_functionHeader =
        s.m_functionHeader ++ joinOpt l := by
  induction l with
  | nil => intro s; exact (strAppendEmpty _).symm
  | cons o rest ih =>
    intro s
    calc (runHeaderAppends s (o :: rest)).m_functionHeader
        = (runHeaderAppends (Impl.addToFunctionHeaderShaderCode s o)
            rest).m_functionHeader := rfl
      _ = s.m_functionHeader ++ cstr o ++ joinOpt rest := ih _
      _ = s.m_functionHeader ++ (cstr o ++ joinOpt rest) := strAppendAssoc _ _ _

theorem runBodyAppends_spec (l : List (Option String)) :
    ∀ s : Impl,
      (runBodyAppends s l).m_functionBody = s.m_functionBody ++ joinOpt l := by
  induction l with
  | nil => intro s; exact (strAppendEmpty _).symm
  | cons o rest ih =>
    intro s
    calc (runBodyAppends s (o :: rest)).m_functionBody
        = (runBodyAppends (Impl.addToFunctionShaderCode s o)
            rest).m_functionBody := rfl
      _ = s.m_functionBody ++ cstr o ++ joinOpt rest := ih _
      _ = s.m_functionBody ++ (cstr o ++ joinOpt rest) := strAppendAssoc _ _ _

theorem runFooterAppends_spec (l : List (Option String)) :
    ∀ s : Impl,
      (runFooterAppends s l).m_functionFooter =
        s.m_functionFooter ++ joinOpt l := by
  induction l with
  | nil => intro s; exact (strAppendEmpty _).symm
  | cons o rest ih =>
    intro s
    calc (runFooterAppends s (o :: rest)).m_functionFooter
        = (runFooterAppends (Impl.addToFunctionFooterShaderCode s o)
            rest).m_functionFooter := rfl
      _ = s.m_functionFooter ++ cstr o ++ joinOpt rest := ih _
      _ = s.m_functionFooter ++ (cstr o ++ joinOpt rest) := strAppendAssoc _ _ _

/-- C8: over any non-empty sequence of append calls (null and empty segments
included) starting from empty buffers, the declarations and helper buffers
each hold their one-time banner exactly once, in front of exactly the
appended content; the function header, body and footer buffers hold exactly
the appended content with no banner. -/
theorem banner_emission (s : Impl) (o : Option String) (l : List (Option String))
    (h1 : s.m_declarations = "") (h2 : s.m_helperMethods = "") :
    (runDecls s (o :: l)).m_declarations = declBanner ++ joinOpt (o :: l) ∧
    (runHelpers s (o :: l)).m_helperMethods = helperBanner ++ joinOpt (o :: l) ∧
    (runHeaderAppends s (o :: l)).m_functionHeader =
      s.m_functionHeader ++ joinOpt (o :: l) ∧
    (runBodyAppends s (o :: l)).m_functionBody =
      s.m_functionBody ++ joinOpt (o :: l) ∧
    (runFooterAppends s (o :: l)).m_functionFooter =
      s.m_functionFooter ++ joinOpt (o :: l) := by
  refine ⟨?_, ?_, runHeaderAppends_spec _ _, runBodyAppends_spec _ _,
    runFooterAppends_spec _ _⟩
  · have hstep : (Impl.addToDeclareShaderCode s o).m_declarations =
        declBanner ++ cstr o := by
      unfold Impl.addToDeclareShaderCode
      simp [h1]
    calc (runDecls s (o :: l)).m_declarations
        = (runDecls (Impl.addToDeclareShaderCode s o) l).m_declarations := rfl
      _ = (Impl.addToDeclareShaderCode s o).m_declarations ++ joinOpt l :=
          runDecls_of_ne l _ (by rw [hstep]; exact strAppendNeEmpty _ _ (by decide))
      _ = declBanner ++ cstr o ++ joinOpt l := by rw [hstep]
      _ = declBanner ++ (cstr o ++ joinOpt l) := strAppendAssoc _ _ _
  · have hstep : (Impl.addToHelperShaderCode s o).m_helperMethods =
        helperBanner ++ cstr o := by
      unfold Impl.addToHelperShaderCode
      simp [h2]
    calc (runHelpers s (o :: l)).m_helperMethods
        = (runHelpers (Impl.addToHelperShaderCode s o) l).m_helperMethods := rfl
      _ = (Impl.addToHelperShaderCode s o).m_helperMethods ++ joinOpt l :=
          runHelpers_of_ne l _ (by rw [hstep]; exact strAppendNeEmpty _ _ (by decide))
      _ = helperBanner ++ cstr o ++ joinOpt l := by rw [hstep]
      _ = helperBanner ++ (cstr o ++ joinOpt l) := strAppendAssoc _ _ _

/-- C8 witness: the banner theorem applied to a fresh descriptor and a
three-call sequence containing a null and an empty append. -/
theorem banner_emission_witness :
    ({} : Impl).m_declarations = "" ∧ ({} : Impl).m_helperMethods = "" ∧
    ((runDecls {} (none :: [some "", some "int x;"])).m_declarations =
        declBanner ++ joinOpt (none :: [some "", some "int x;"]) ∧
      (runHelpers {} (none :: [some "", some "int x;"])).m_helperMethods =
        helperBanner ++ joinOpt (none :: [some "", some "int x;"]) ∧
      (runHeaderAppends {} (none :: [some "", some "int x;"])).m_functionHeader =
        ({} : Impl).m_functionHeader ++ joinOpt (none :: [some "", some "int x;"]) ∧
      (runBodyAppends {} (none :: [some "", some "int x;"])).m_functionBody =
        ({} : Impl).m_functionBody ++ joinOpt (none :: [some "", some "int x;"]) ∧
      (runFooterAppends {} (none :: [some "", some "int x;"])).m_functionFooter =
        ({} : Impl).m_functionFooter ++ joinOpt (none :: [some "", some "int x;"])) :=
  ⟨rfl, rfl, banner_emission {} none [some "", some "int x;"] rfl rfl⟩

/-! ### Double finalize for the full-program (OSL) family (claim C2) -/

set_option maxRecDepth 100000

/-- C2 evidence: `finalize` has no already-finalized guard; on a descriptor
configured for the OSL language it runs the pre-pass unconditionally, so a
second call prepends the synthesized preamble to the declarations buffer (and
appends the synthesized closing lines to the footer) a second time: the
includes marker of the preamble occurs once after one call and twice after
two, and the footer assignment line likewise, instead of the second call
failing fast. -/
theorem double_finalize_duplicates_osl_preamble :
    countOccs oslIncludesMarker.data
      (Impl.finalize (Impl.setLanguage {} .LANGUAGE_OSL_1)).m_declarations.data
      = 1 ∧
    countOccs oslIncludesMarker.data
      (Impl.finalize (Impl.finalize
        (Impl.setLanguage {} .LANGUAGE_OSL_1))).m_declarations.data = 2 ∧
    countOccs ("outColor = OCIOMain(inColor);" : String).data
      (Impl.finalize (Impl.setLanguage {} .LANGUAGE_OSL_1)).m_functionFooter.data
      = 1 ∧
    countOccs ("outColor = OCIOMain(inColor);" : String).data
      (Impl.finalize (Impl.finalize
        (Impl.setLanguage {} .LANGUAGE_OSL_1))).m_functionFooter.data = 2 := by
  refine ⟨by decide, by decide, by decide, by decide⟩

/-! ### Metal class wrapping (claim C5) -/

/-- First ordinary texture of the Metal scenario (height 2, hence 2D). -/
def metalTex1 : Texture := ⟨"ocio_lut1d_0", "ocio_lut1d_0Sampler", 4096, 2⟩

/-- Second ordinary texture of the Metal scenario (height 2, hence 2D). -/
def metalTex2 : Texture := ⟨"ocio_lut1d_1", "ocio_lut1d_1Sampler", 4096, 2⟩

/-- The 3D texture of the Metal scenario. -/
def metalLut3d : Texture3D := ⟨"ocio_lut3d_0", "ocio_lut3d_0Sampler", 33⟩

/-- A fresh descriptor switched to Metal, with two ordinary textures and one
3D texture registered upstream, then finalized. -/
def metalState : Impl :=
  Impl.finalize
    (Impl.add3DTexture
      (Impl.addTexture
        (Impl.addTexture (Impl.setLanguage {} .GPU_LANGUAGE_MSL_METAL) metalTex1)
        metalTex2)
      metalLut3d)

/-- C5: with 2 ordinary textures and 1 3D texture registered, `finalize`
produces a wrapper parameter list of exactly 6 entries — a (texture-type,
name) plus a (sampler, samplerName) pair per texture, the 3D pair first and
then the 2D pairs in enumeration order — and the shader text contains the
synthesized class-wrapper header banner and footer banner exactly once
each. -/
theorem metal_finalize_params_and_banners :
    (metalState.m_classWrappingInterface.getD {}).classWrapFunctionParams =
      [⟨"texture3d<float>", "ocio_lut3d_0"⟩,
       ⟨"sampler", "ocio_lut3d_0Sampler"⟩,
       ⟨"texture2d<float>", "ocio_lut1d_0"⟩,
       ⟨"sampler", "ocio_lut1d_0Sampler"⟩,
       ⟨"texture2d<float>", "ocio_lut1d_1"⟩,
       ⟨"sampler", "ocio_lut1d_1Sampler"⟩] ∧
    countOccs metalHeaderBanner.data (Impl.getShaderText metalState).data = 1 ∧
    countOccs metalFooterBanner.data (Impl.getShaderText metalState).data = 1 := by
  refine ⟨by decide, by decide, by decide⟩

/-! ### Resource-index allocation under interleaving (claim C9) -/

/-- The descriptor operations that can be interleaved with resource-index
allocation (all the mutators of `GpuShaderCreator`/`GpuShaderDesc`). -/
inductive Op where
  | opSetUniqueID (uid : Option String)
  | opSetLanguage (lang : GpuLanguage)
  | opSetFunctionName (name : String)
  | opSetResourcePfx (p : String)
  | opSetPixelName (n : String)
  | opNextResourceIndex
  | opAddDynamicProperty (p : DynamicProperty)
  | opAddToDeclare (c : Option String)
  | opAddToHelper (c : Option String)
  | opAddToFunctionHeader (c : Option String)
  | opAddToFunctionBody (c : Option String)
  | opAddToFunctionFooter (c : Option String)
  | opAddTexture (t : Texture)
  | opAdd3DTexture (t : Texture3D)
  | opFinalize
  | opGetCacheID
  deriving DecidableEq, Repr

/-- Execute one operation; the second component lists the value returned by
`getNextResourceIndex` when the operation is an allocation (a failing
`addDynamicProperty` leaves the state unchanged, as the C++ throw does). -/
def execOp (s : Impl) : Op → Impl × List Nat
  | .opSetUniqueID uid => (s.setUniqueID uid, [])
  | .opSetLanguage lang => (s.setLanguage lang, [])
  | .opSetFunctionName name => (s.setFunctionName name, [])
  | .opSetResourcePfx p => (s.setResourcePfx p, [])
  | .opSetPixelName n => (s.setPixelName n, [])
  | .opNextResourceIndex =>
      ((s.getNextResourceIndex).2, [(s.getNextResourceIndex).1])
  | .opAddDynamicProperty p =>
      ((match s.addDynamicProperty p with
        | .ok s2 => s2
        | .error _ => s), [])
  | .opAddToDeclare c => (s.addToDeclareShaderCode c, [])
  | .opAddToHelper c => (s.addToHelperShaderCode c, [])
  | .opAddToFunctionHeader c => (s.addToFunctionHeaderShaderCode c, [])
  | .opAddToFunctionBody c => (s.addToFunctionShaderCode c, [])
  | .opAddToFunctionFooter c => (s.addToFunctionFooterShaderCode c, [])
  | .opAddTexture t => (s.addTexture t, [])
  | .opAdd3DTexture t => (s.add3DTexture t, [])
  | .opFinalize => (s.finalize, [])
  | .opGetCacheID => ((s.getCacheID).2, [])

/-- Execute a list of operations, collecting all allocated indices in order. -/
def runOps (s : Impl) : List Op → Impl × List Nat
  | [] => (s, [])
  | op :: rest =>
    let r := execOp s op
    let r2 := runOps r.1 rest
    (r2.1, r.2 ++ r2.2)

/-- Is this operation a `getNextResourceIndex` call? -/
def isNextOp : Op → Bool
  | .opNextResourceIndex => true
  | _ => false

/-- Number of `getNextResourceIndex` calls in a list of operations. -/
def countNext (l : List Op) : Nat :=
  l.countP isNextOp

theorem oslPrePass_counter (s : Impl) :
    (oslPrePass s).m_numResources = s.m_numResources := by
  unfold oslPrePass
  split <;> rfl

theorem metalPrePassCond_counter (s : Impl) :
    (metalPrePassCond s).m_numResources = s.m_numResources := by
  unfold metalPrePassCond metalPrePass
  split <;> rfl

theorem createShaderText_counter (s : Impl) (a b c d e : Option String) :
    (Impl.createShaderText s a b c d e).m_numResources = s.m_numResources := rfl

theorem finalize_counter (s : Impl) :
    (Impl.finalize s).m_numResources = s.m_numResources :=
  (createShaderText_counter _ _ _ _ _ _).trans
    ((metalPrePassCond_counter _).trans (oslPrePass_counter s))

/-- Every operation other than an allocation preserves the resource counter
and emits no index. -/
theorem execOp_counter (s : Impl) (op : Op) (h : isNextOp op = false) :
    (execOp s op).1.m_numResources = s.m_numResources ∧ (execOp s op).2 = [] := by
  cases op
  case opNextResourceIndex => simp [isNextOp] at h
  case opSetLanguage lang =>
    refine ⟨?_, rfl⟩
    by_cases hl : lang = GpuLanguage.GPU_LANGUAGE_MSL_METAL <;>
      simp [execOp, Impl.setLanguage, hl]
  case opAddDynamicProperty p =>
    refine ⟨?_, rfl⟩
    cases hdp : Impl.hasDynamicProperty s p.ptype <;>
      simp [execOp, Impl.addDynamicProperty, hdp]
  case opFinalize =>
    exact ⟨finalize_counter s, rfl⟩
  case opGetCacheID =>
    refine ⟨?_, rfl⟩
    by_cases hc : s.m_cacheID = "" <;> simp [execOp, Impl.getCacheID, hc]
  all_goals exact ⟨rfl, rfl⟩

/-- The counter evolution and index trace of any operation sequence: starting
below the 32-bit bound, the counter after the run is the start plus the
number of allocations, modulo `2^32`, and the emitted indices are
`start, start+1, …` reduced modulo `2^32`. -/
theorem runOps_spec (ops : List Op) :
    ∀ s : Impl, s.m_numResources < W32 →
      (runOps s ops).1.m_numResources =
        (s.m_numResources + countNext ops) % W32 ∧
      (runOps s ops).2 =
        (List.range (countNext ops)).map
          (fun k => (s.m_numResources + k) % W32) := by
  induction ops with
  | nil =>
    intro s hs
    refine ⟨?_, rfl⟩
    simp [runOps, countNext, Nat.mod_eq_of_lt hs]
  | cons op rest ih =>
    intro s hs
    cases hop : isNextOp op with
    | false =>
      obtain ⟨hc, ho⟩ := execOp_counter s op hop
      have hlt : (execOp s op).1.m_numResources < W32 := by rw [hc]; exact hs
      obtain ⟨ih1, ih2⟩ := ih (execOp s op).1 hlt
      have hcount : countNext (op :: rest) = countNext rest := by
        simp [countNext, List.countP_cons, hop]
      constructor
      · show (runOps (execOp s op).1 rest).1.m_numResources = _
        rw [ih1, hc, hcount]
      · show (execOp s op).2 ++ (runOps (execOp s op).1 rest).2 = _
        rw [ho, ih2, hc, hcount, List.nil_append]
    | true =>
      have hop2 : op = Op.opNextResourceIndex := by
        cases op <;> simp_all [isNextOp]
      subst hop2
      have hlt : (execOp s Op.opNextResourceIndex).1.m_numResources < W32 := by
        show (s.m_numResources + 1) % W32 < W32
        exact Nat.mod_lt _ (by decide)
      obtain ⟨ih1, ih2⟩ := ih _ hlt
      have hcount : countNext (Op.opNextResourceIndex :: rest) =
          countNext rest + 1 := by
        simp [countNext, List.countP_cons, isNextOp]
      constructor
      · show (runOps (execOp s Op.opNextResourceIndex).1 rest).1.m_numResources = _
        rw [ih1, hcount]
        show ((s.m_numResources + 1) % W32 + countNext rest) % W32 = _
        rw [Nat.mod_add_mod]
        congr 1
        omega
      · show [s.m_numResources] ++
            (runOps (execOp s Op.opNextResourceIndex).1 rest).2 = _
        rw [ih2, hcount, List.range_succ_eq_map, List.map_cons, List.map_map]
        rw [List.singleton_append]
        congr 1
        · rw [Nat.add_zero]
          exact (Nat.mod_eq_of_lt hs).symm
        · apply List.map_congr_left
          intro k _
          show ((s.m_numResources + 1) % W32 + k) % W32 = _
          rw [Nat.mod_add_mod]
          simp [Function.comp]
          congr 1
          omega

/-- C9 amended: on a fresh descriptor, the indices returned by the
allocations in any interleaved operation sequence are `k % 2^32` for
`k = 0, 1, …` in order (the 32-bit counter wraps); for at most `2^32`
allocations this is exactly `0, 1, …, N−1`, with no decrease and no reuse. -/
theorem resource_index_sequence (ops : List Op) :
    (runOps {} ops).2 =
      (List.range (countNext ops)).map (fun k => k % W32) ∧
    (countNext ops ≤ W32 → (runOps {} ops).2 = List.range (countNext ops)) := by
  have h := (runOps_spec ops {} (by decide)).2
  have hzero : ({} : Impl).m_numResources = 0 := rfl
  rw [hzero] at h
  simp only [Nat.zero_add] at h
  constructor
  · exact h
  · intro hle
    rw [h]
    have hid : ∀ k ∈ List.range (countNext ops), k % W32 = k := by
      intro k hk
      exact Nat.mod_eq_of_lt (lt_of_lt_of_le (List.mem_range.mp hk) hle)
    calc (List.range (countNext ops)).map (fun k => k % W32)
        = (List.range (countNext ops)).map (fun k => k) :=
          List.map_congr_left hid
      _ = List.range (countNext ops) := List.map_id _

/-- C9 witness: two allocations with a configuration call interleaved return
`[0, 1]`. -/
theorem resource_index_sequence_witness :
    countNext [Op.opNextResourceIndex, Op.opSetFunctionName "foo",
      Op.opNextResourceIndex] ≤ W32 ∧
    (runOps {} [Op.opNextResourceIndex, Op.opSetFunctionName "foo",
      Op.opNextResourceIndex]).2 =
      List.range (countNext [Op.opNextResourceIndex,
        Op.opSetFunctionName "foo", Op.opNextResourceIndex]) :=
  ⟨by decide,
    (resource_index_sequence [Op.opNextResourceIndex,
      Op.opSetFunctionName "foo", Op.opNextResourceIndex]).2 (by decide)⟩

theorem countNext_replicate (n : Nat) :
    countNext (List.replicate n Op.opNextResourceIndex) = n := by
  induction n with
  | zero => rfl
  | succ m ih =>
    rw [List.replicate_succ]
    simp [countNext, List.countP_cons, isNextOp] at ih ⊢
    omega

/-- C9 counterexample: the claim as stated ("for every N the indices are
0, 1, …, N−1; no index is handed out twice") fails at `N = 2^32 + 1`: the
32-bit counter wraps, so the last allocation returns 0 again. -/
theorem resource_index_wrap_counterexample :
    (runOps {} (List.replicate (W32 + 1) Op.opNextResourceIndex)).2 ≠
      List.range (W32 + 1) := by
  have h := (runOps_spec (List.replicate (W32 + 1) Op.opNextResourceIndex) {}
    (by decide)).2
  rw [countNext_replicate] at h
  rw [h]
  intro heq
  have h2 := congrArg (fun l : List Nat => l[W32]?) heq
  simp only [List.getElem?_map] at h2
  rw [List.getElem?_range (by omega)] at h2
  simp only [Option.map_some'] at h2
  have h3 : (({} : Impl).m_numResources + W32) % W32 = W32 :=
    Option.some.inj h2
  have hzero : ({} : Impl).m_numResources = 0 := rfl
  rw [hzero, Nat.zero_add, Nat.mod_self] at h3
  exact absurd h3 (by decide)

end OCIO
